import Mathlib

/-!
Verification of the HBX Controls Home Assistant integration
(`custom_components/hbx_controls` plus the SensorLinx platform files).

The development shallowly embeds the Python source:
* dynamic Python values become the inductive `PyValue` (numeric payloads are
  modelled as `Int`; none of the verified properties computes with them);
* a device's parameter dict becomes `Params := String → Option PyValue`,
  with `pset` embedding dict assignment and `pget` embedding `dict.get`
  (which collapses an absent key and a stored `None` into `None`);
* the vendor API is an oracle: each awaited call is a field of
  `DeviceFetches` / `ApiOracle` holding an `Except Exc` result, where
  `Exc.authFailedExc` stands for `ConfigEntryAuthFailed` and `Exc.otherExc`
  for every other exception;
* the coordinator's `_async_update_data` becomes `asyncUpdateData`, whose
  outcome distinguishes a successful snapshot, `ConfigEntryAuthFailed`, and
  `UpdateFailed`;
* platform `async_setup_entry` functions become pure functions from the
  coordinator data to the list of created entities.
-/

namespace HbxControls

/-- Information held by one entry of a heat-pump stage list, as read by the
platform files: `stage.get("title", "Stage")` plus the `activated` /
`enabled` flags read by `is_on`. -/
structure StageInfo where
  title : Option String
  activated : Option Bool
  enabled : Option Bool
deriving DecidableEq

/-- Information held by the `backup_state` dict, as read by the platform
files: `backup_state.get("title", "Backup")` plus the `activated` /
`enabled` flags read by `is_on`.  We model only the present-or-absent dict;
the code never stores an empty dict here (`get_backup_state` results are
stored only when truthy). -/
structure BackupInfo where
  title : Option String
  activated : Option Bool
  enabled : Option Bool
deriving DecidableEq

/-- Dynamic Python values that can appear in a device parameter map. -/
inductive PyValue where
  | pynone
  | pybool (b : Bool)
  | pyint (n : Int)
  | pystr (s : String)
  | pytemp (value : Int) (unit : String)
  | pystages (stages : List StageInfo)
  | pybackup (info : BackupInfo)
deriving DecidableEq

/-- Python truthiness restricted to the values of `PyValue`.  A `Temperature`
object, a nonempty backup dict and a nonempty list are truthy; `None`,
`False`, `0`, `""` and `[]` are falsy. -/
def pyTruthy : PyValue → Bool
  | .pynone => false
  | .pybool b => b
  | .pyint n => n ≠ 0
  | .pystr s => s ≠ ""
  | .pytemp _ _ => true
  | .pystages l => !l.isEmpty
  | .pybackup _ => true

/-- Python `value == "off"`: only a string compares equal to a string. -/
def pyEqStr (v : PyValue) (s : String) : Bool :=
  match v with
  | .pystr t => t = s
  | _ => false

/-- A Python dict from parameter name to value, observed through lookup. -/
def Params : Type := String → Option PyValue

/-- The empty dict `{}`. -/
def emptyParams : Params := fun _ => none

/-- Dict assignment `m[k] = v`, observed through lookup. -/
def pset (m : Params) (k : String) (v : PyValue) : Params :=
  fun k' => if k' = k then some v else m k'

/-- Dict read `m.get(k)`: an absent key reads as Python `None`. -/
def pget (m : Params) (k : String) : PyValue :=
  (m k).getD .pynone

/-! ### Scan interval (claim C3)

Constants from `const.py`; the coordinator reads
`entry.data.get(CONF_SCAN_INTERVAL, DEFAULT_SCAN_INTERVAL)` and applies no
clamping itself. -/

def DEFAULT_SCAN_INTERVAL : Int := 300

def MIN_SCAN_INTERVAL : Int := 60

def MAX_SCAN_INTERVAL : Int := 3600

/-- Embeds `coordinator.py` line 29: the scan interval the coordinator uses,
given the value stored in the config entry data (absent ↦ default). -/
def coordinatorScanInterval (stored : Option Int) : Int :=
  stored.getD DEFAULT_SCAN_INTERVAL

/-- Modelled from the spec: `config_flow.py` is part of this repository but
is not under `src/` (only `tests/test_config_flow.py` is).  Spec §6 states
the configured poll interval is "clamped [60, 3600]"; this models the scan
interval that configuring the value `v` stores in the entry data. -/
def configFlowStoredScanInterval (v : Int) : Int :=
  min MAX_SCAN_INTERVAL (max MIN_SCAN_INTERVAL v)

/-- The effective poll interval: the coordinator applied to what the
(spec-modelled) config flow stored for the configured value, or to an
absent value when nothing was configured. -/
def effectivePollInterval (configured : Option Int) : Int :=
  coordinatorScanInterval (configured.map configFlowStoredScanInterval)

/-! ### The API oracle and the snapshot builder (`_async_update_data`) -/

/-- Exceptions as the coordinator's handlers distinguish them:
`ConfigEntryAuthFailed` versus every other exception. -/
inductive Exc where
  | authFailedExc (msg : String)
  | otherExc (msg : String)
deriving DecidableEq

/-- The result of `get_temperatures` for one temperature name: the optional
`"actual"` and `"target"` entries (each a `Temperature` whose `.value` is
read); modelled by the `.value` payloads. -/
structure TempEntry where
  actual : Option Int
  target : Option Int
deriving DecidableEq

/-- Oracle for the per-parameter awaited calls made for one device inside
`_async_update_data` (in source order).  A falsy `get_temperatures` result
(Python `None` or `{}`) is modelled by `.ok []`; a falsy
`get_backup_state` result by `.ok none`. -/
structure DeviceFetches where
  temperatures : Except Exc (List (String × TempEntry))
  permanentHeatDemand : Except Exc PyValue
  permanentCoolDemand : Except Exc PyValue
  hvacModePriority : Except Exc Int
  hotTankMinTemp : Except Exc PyValue
  hotTankMaxTemp : Except Exc PyValue
  hotTankOutdoorReset : Except Exc PyValue
  coldTankMinTemp : Except Exc PyValue
  coldTankMaxTemp : Except Exc PyValue
  coldTankOutdoorReset : Except Exc PyValue
  firmwareVersion : Except Exc PyValue
  deviceType : Except Exc PyValue
  warmWeatherShutdown : Except Exc PyValue
  coldWeatherShutdown : Except Exc PyValue
  heatpumpStagesState : Except Exc (List StageInfo)
  backupState : Except Exc (Option BackupInfo)

/-- A device dict as returned by `get_devices`, with the fields the
coordinator reads, together with the oracle for this device's parameter
fetches. -/
structure ApiDevice where
  syncCode : Option String
  id : Option String
  name : Option String
  fetches : DeviceFetches

/-- A building as returned by `get_buildings`: its `id` plus the oracle for
`get_devices(building_id)` (a falsy result is modelled by `.ok []`). -/
structure Building where
  id : Option String
  devicesResult : Except Exc (List ApiDevice)

/-- Oracle for the top-level awaited calls of `_async_update_data`.  A falsy
`get_buildings` result is modelled by `.ok []` (the code replaces falsy
with `[]` anyway). -/
structure ApiOracle where
  login : Except Exc Unit
  profile : Except Exc PyValue
  buildings : Except Exc (List Building)

/-- Key normalisation used for temperature parameters:
`temp_name.lower().replace(' ', '_')`. -/
def normalizeTempName (s : String) : String :=
  (s.toLower).replace " " "_"

/-- Embeds the loop body over `temps.items()`: store the `"actual"` and
`"target"` values under their derived keys when present (a `Temperature`
object is always truthy). -/
def addTempEntry (m : Params) (nm : String) (te : TempEntry) : Params :=
  let m1 :=
    match te.actual with
    | some v => pset m ("temperature_" ++ normalizeTempName nm) (.pyint v)
    | none => m
  match te.target with
  | some v => pset m1 ("target_temperature_" ++ normalizeTempName nm) (.pyint v)
  | none => m1

/-- Parameters contributed by a successful `get_temperatures` result. -/
def tempParams (ts : List (String × TempEntry)) : Params :=
  ts.foldl (fun m it => addTempEntry m it.1 it.2) emptyParams

/-- Embeds one individually wrapped fetch
`try: parameters[k] = await fetch ... except: pass`. -/
def addFetch (m : Params) (k : String) (r : Except Exc PyValue) : Params :=
  match r with
  | .ok v => pset m k v
  | .error _ => m

/-- Embeds `mode_map = {0: "heat", 1: "cool", 2: "auto"}` with default
`"auto"`. -/
def modeMap (n : Int) : String :=
  if n = 0 then "heat" else if n = 1 then "cool" else if n = 2 then "auto" else "auto"

/-- Embeds the wrapped `hvac_mode` fetch, which stores the mapped string. -/
def addHvac (m : Params) (r : Except Exc Int) : Params :=
  match r with
  | .ok n => pset m "hvac_mode" (.pystr (modeMap n))
  | .error _ => m

/-- Embeds the wrapped `heatpump_stages` fetch, which stores the result only
when truthy (a nonempty list). -/
def addStages (m : Params) (r : Except Exc (List StageInfo)) : Params :=
  match r with
  | .ok l => if l.isEmpty then m else pset m "heatpump_stages" (.pystages l)
  | .error _ => m

/-- Embeds the wrapped `backup_state` fetch, which stores the result only
when truthy. -/
def addBackup (m : Params) (r : Except Exc (Option BackupInfo)) : Params :=
  match r with
  | .ok (some b) => pset m "backup_state" (.pybackup b)
  | .ok none => m
  | .error _ => m

/-- Embeds `coordinator.py` lines 84-186: the per-device parameter map.
The `get_temperatures` call is the only fetch not wrapped in its own
`try/except`: when it raises, the per-device handler (line 185) catches the
exception with the parameter dict still empty, so every later fetch is
skipped and the map stays empty.  Every later fetch is individually
wrapped, so its failure only omits its own key. -/
def buildParameters (f : DeviceFetches) : Params :=
  match f.temperatures with
  | .error _ => emptyParams
  | .ok ts =>
    let m := tempParams ts
    let m := addFetch m "permanent_heat_demand" f.permanentHeatDemand
    let m := addFetch m "permanent_cool_demand" f.permanentCoolDemand
    let m := addHvac m f.hvacModePriority
    let m := addFetch m "hot_tank_min_temp" f.hotTankMinTemp
    let m := addFetch m "hot_tank_max_temp" f.hotTankMaxTemp
    let m := addFetch m "hot_tank_outdoor_reset" f.hotTankOutdoorReset
    let m := addFetch m "cold_tank_min_temp" f.coldTankMinTemp
    let m := addFetch m "cold_tank_max_temp" f.coldTankMaxTemp
    let m := addFetch m "cold_tank_outdoor_reset" f.coldTankOutdoorReset
    let m := addFetch m "firmware_version" f.firmwareVersion
    let m := addFetch m "device_type" f.deviceType
    let m := addFetch m "warm_weather_shutdown" f.warmWeatherShutdown
    let m := addFetch m "cold_weather_shutdown" f.coldWeatherShutdown
    let m := addStages m f.heatpumpStagesState
    let m := addBackup m f.backupState
    m

/-- Embeds `device_id = device.get("syncCode") or device.get("id")`:
Python `or` yields the first operand when truthy (a nonempty string),
otherwise the second operand as-is. -/
def deviceKey (d : ApiDevice) : Option String :=
  match d.syncCode with
  | some s => if s = "" then d.id else some s
  | none => d.id

/-- The device dict as stored in the snapshot: the original fields plus the
assembled `parameters` map and the recorded `building_id`. -/
structure StoredDevice where
  syncCode : Option String
  id : Option String
  name : Option String
  parameters : Params
  building_id : Option String

/-- Builds the stored device dict for device `d` of building `b`. -/
def storeDevice (b : Building) (d : ApiDevice) : StoredDevice :=
  { syncCode := d.syncCode
    id := d.id
    name := d.name
    parameters := buildParameters d.fetches
    building_id := b.id }

/-- The `devices` dict of the snapshot, keyed by the (possibly `None`)
device identifier. -/
abbrev DevMap : Type := List (Option String × StoredDevice)

/-- Dict lookup: the value of the first (and, as built, only) entry with the
given key. -/
def lookupKV (m : DevMap) (k : Option String) : Option StoredDevice :=
  match m with
  | [] => none
  | (k', v) :: rest => if k' = k then some v else lookupKV rest k

/-- Dict assignment `devices[device_id] = device`: replace the existing
entry in place, or append a new one. -/
def insertKV (m : DevMap) (k : Option String) (v : StoredDevice) : DevMap :=
  if m.any (fun kv => kv.1 = k) then
    m.map (fun kv => if kv.1 = k then (k, v) else kv)
  else
    m ++ [(k, v)]

/-- Embeds the device loop for one building (`coordinator.py` lines 71-195):
a `get_devices` failure is caught and skips the building; a falsy result
skips the loop. -/
def addBuildingDevices (acc : DevMap) (b : Building) : DevMap :=
  match b.devicesResult with
  | .error _ => acc
  | .ok ds => ds.foldl (fun a d => insertKV a (deviceKey d) (storeDevice b d)) acc

/-- The assembled `devices` dict over all buildings. -/
def buildDevices (bs : List Building) : DevMap :=
  bs.foldl addBuildingDevices []

/-- The snapshot returned by a successful update: the dict
`{"profile": ..., "buildings": ..., "devices": ...}`. -/
structure CoordData where
  profile : PyValue
  buildings : List Building
  devices : DevMap

/-- The body of `_async_update_data` (inside the outer `try`), before the
two exception handlers. -/
def asyncUpdateDataBody (o : ApiOracle) : Except Exc CoordData := do
  let _ ← o.login
  let profile ← o.profile
  if pyTruthy profile then
    let buildings ← o.buildings
    pure { profile := profile, buildings := buildings, devices := buildDevices buildings }
  else
    throw (Exc.authFailedExc "Failed to get user profile")

/-- The observable outcome of `_async_update_data`: a snapshot, a raised
`ConfigEntryAuthFailed`, or a raised `UpdateFailed`. -/
inductive UpdateOutcome where
  | ok (data : CoordData)
  | authFailed (msg : String)
  | updateFailed (msg : String)

/-- Embeds `_async_update_data` with its two handlers (`coordinator.py`
lines 205-210): `ConfigEntryAuthFailed` is re-raised unchanged; any other
exception is wrapped in `UpdateFailed`. -/
def asyncUpdateData (o : ApiOracle) : UpdateOutcome :=
  match asyncUpdateDataBody o with
  | .ok d => .ok d
  | .error (.authFailedExc m) => .authFailed m
  | .error (.otherExc m) => .updateFailed ("Error communicating with API: " ++ m)

/-! ### Characterising the per-device parameter map -/

/-- The value a plain individually wrapped fetch contributes: its result on
success, nothing on failure. -/
def excToOption (r : Except Exc PyValue) : Option PyValue :=
  match r with
  | .ok v => some v
  | .error _ => none

/-- The value the `hvac_mode` fetch contributes. -/
def hvacExpected (r : Except Exc Int) : Option PyValue :=
  match r with
  | .ok n => some (.pystr (modeMap n))
  | .error _ => none

/-- The value the `heatpump_stages` fetch contributes (only truthy results
are stored). -/
def stagesExpected (r : Except Exc (List StageInfo)) : Option PyValue :=
  match r with
  | .ok l => if l.isEmpty then none else some (.pystages l)
  | .error _ => none

/-- The value the `backup_state` fetch contributes (only truthy results are
stored). -/
def backupExpected (r : Except Exc (Option BackupInfo)) : Option PyValue :=
  match r with
  | .ok (some b) => some (.pybackup b)
  | .ok none => none
  | .error _ => none

/-! ### Snapshot state as seen by entities -/

/-- The coordinator state an entity observes: whether the last update
succeeded and the (possibly absent) snapshot dict. -/
structure CoordState where
  lastUpdateSuccess : Bool
  data : Option CoordData

/-- Python `value is None` on a parameter read. -/
def pyIsNone : PyValue → Bool
  | .pynone => true
  | _ => false

/-- Embeds `SensorLinxBinarySensor.available` (`binary_sensor.py` lines
204-212): last update succeeded, the data dict exists (a snapshot dict
always carries its `"devices"` key) and the device id is a key of it. -/
def sensorLinxBinarySensorAvailable (st : CoordState) (devId : Option String) : Bool :=
  st.lastUpdateSuccess &&
    (match st.data with
     | some d => (lookupKV d.devices devId).isSome
     | none => false)

/-- Embeds `StageOnLagTime.available` (`number.py` lines 1246-1255): the
base conditions plus presence of the `stage_on_lag_time` key. -/
def stageOnLagTimeAvailable (st : CoordState) (devId : Option String) : Bool :=
  st.lastUpdateSuccess &&
    (match st.data with
     | some d =>
       match lookupKV d.devices devId with
       | some dev => (dev.parameters "stage_on_lag_time").isSome
       | none => false
     | none => false)

/-- Embeds `HotTankTargetTemperature.available` (`number.py` lines
366-383): base conditions, then available only when
`hot_tank_outdoor_reset` reads `"off"` or `None`. -/
def hotTankTargetAvailable (st : CoordState) (devId : Option String) : Bool :=
  match st.data with
  | none => false
  | some d =>
    st.lastUpdateSuccess &&
      (match lookupKV d.devices devId with
       | none => false
       | some dev =>
         let v := pget dev.parameters "hot_tank_outdoor_reset"
         pyEqStr v "off" || pyIsNone v)

/-- Embeds `HotTankMinTemperature.available` (`number.py` lines 456-473):
base conditions, then available only when `hot_tank_outdoor_reset` reads
neither `"off"` nor `None`. -/
def hotTankMinAvailable (st : CoordState) (devId : Option String) : Bool :=
  match st.data with
  | none => false
  | some d =>
    st.lastUpdateSuccess &&
      (match lookupKV d.devices devId with
       | none => false
       | some dev =>
         let v := pget dev.parameters "hot_tank_outdoor_reset"
         !pyEqStr v "off" && !pyIsNone v)

/-- Embeds `HotTankMaxTemperature.available` (`number.py` lines 544-561):
the same condition as the min entity. -/
def hotTankMaxAvailable (st : CoordState) (devId : Option String) : Bool :=
  match st.data with
  | none => false
  | some d =>
    st.lastUpdateSuccess &&
      (match lookupKV d.devices devId with
       | none => false
       | some dev =>
         let v := pget dev.parameters "hot_tank_outdoor_reset"
         !pyEqStr v "off" && !pyIsNone v)

/-- Embeds `HotTankTargetTemperature.native_value` (`number.py` lines
355-364): reads `target_temperature_tank` from the snapshot. -/
def hotTankTargetNativeValue (st : CoordState) (devId : Option String) : PyValue :=
  match st.data with
  | none => .pynone
  | some d =>
    match lookupKV d.devices devId with
    | none => .pynone
    | some dev => pget dev.parameters "target_temperature_tank"

/-! ### Platform setup (`async_setup_entry`) -/

/-- The number entity classes created by `number.py`'s
`async_setup_entry`, in source order. -/
inductive NumberKind where
  | hotTankTarget
  | hotTankMin
  | hotTankMax
  | hotTankOutdoorReset
  | coldTankTarget
  | coldTankMin
  | coldTankMax
  | coldTankOutdoorReset
  | warmWeatherShutdown
  | coldWeatherShutdown
  | stageOnLag
  | stageOffLag
  | rotateCycles
  | rotateTime
  | backupLag
  | backupDifferential
  | hotTankDifferential
  | coldTankDifferential
  | backupOnlyOutdoorTemp
  | numberOfStages
  | backupTemp
  | weatherShutdownLag
  | heatCoolSwitchDelay
  | backupOnlyTankTemp
deriving DecidableEq

/-- The parameter key whose presence guards creation of each number
entity (`number.py` lines 45-307). -/
def numberGuardKey : NumberKind → String
  | .hotTankTarget => "hot_tank_min_temp"
  | .hotTankMin => "hot_tank_min_temp"
  | .hotTankMax => "hot_tank_max_temp"
  | .hotTankOutdoorReset => "hot_tank_outdoor_reset"
  | .coldTankTarget => "cold_tank_min_temp"
  | .coldTankMin => "cold_tank_min_temp"
  | .coldTankMax => "cold_tank_max_temp"
  | .coldTankOutdoorReset => "cold_tank_outdoor_reset"
  | .warmWeatherShutdown => "warm_weather_shutdown"
  | .coldWeatherShutdown => "cold_weather_shutdown"
  | .stageOnLag => "stage_on_lag_time"
  | .stageOffLag => "stage_off_lag_time"
  | .rotateCycles => "rotate_cycles"
  | .rotateTime => "rotate_time"
  | .backupLag => "backup_lag_time"
  | .backupDifferential => "backup_differential"
  | .hotTankDifferential => "hot_tank_differential"
  | .coldTankDifferential => "cold_tank_differential"
  | .backupOnlyOutdoorTemp => "backup_only_outdoor_temp"
  | .numberOfStages => "number_of_stages"
  | .backupTemp => "backup_temp"
  | .weatherShutdownLag => "weather_shutdown_lag_time"
  | .heatCoolSwitchDelay => "heat_cool_switch_delay"
  | .backupOnlyTankTemp => "backup_only_tank_temp"

/-- Identity of an entity created by one of the platform setup
functions. -/
inductive Entity where
  | number (deviceId : Option String) (kind : NumberKind)
  | binarySensor (deviceId : Option String) (key : String)
  | hpStageBinary (deviceId : Option String) (stageTitle : String)
      (sensorType : String) (dataKey : String)
  | backupBinary (deviceId : Option String) (backupTitle : String)
      (sensorType : String) (dataKey : String)
  | sensor (deviceId : Option String) (key : String)
  | hpStageRuntime (deviceId : Option String) (stageTitle : String)
  | backupRuntime (deviceId : Option String) (backupTitle : String)
deriving DecidableEq

/-- One `if key in parameters: entities.append(...)` guard. -/
def guardEnt (b : Bool) (e : Entity) : List Entity :=
  if b then [e] else []

/-- Embeds `device_parameters.get("heatpump_stages", [])` as iterated by
the setup loops.  Coordinator-built snapshots store only `.pystages`
values under this key; any other value is treated as the absent default. -/
def stagesOf (m : Params) : List StageInfo :=
  match m "heatpump_stages" with
  | some (.pystages l) => l
  | _ => []

/-- Embeds `backup_state = device_parameters.get("backup_state")` followed
by `if backup_state:`: the value, when present and truthy. -/
def truthyGet (m : Params) (k : String) : Option PyValue :=
  match m k with
  | some v => if pyTruthy v then some v else none
  | none => none

/-- Embeds `backup_state.get("title", "Backup")`.  Coordinator-built
snapshots store only `.pybackup` values under `backup_state`; the dict
default is used for the (never-occurring) other shapes. -/
def backupTitleOf (v : PyValue) : String :=
  match v with
  | .pybackup i => i.title.getD "Backup"
  | _ => "Backup"

/-- Embeds `stage.get("title", "Stage")`. -/
def stageTitleOf (st : StageInfo) : String :=
  st.title.getD "Stage"

/-- The number entities created for one device (`number.py` lines 41-307),
in source order. -/
def deviceNumberEntities (devId : Option String) (dev : StoredDevice) : List Entity :=
  guardEnt (dev.parameters "hot_tank_min_temp").isSome (.number devId .hotTankTarget) ++
  guardEnt (dev.parameters "hot_tank_min_temp").isSome (.number devId .hotTankMin) ++
  guardEnt (dev.parameters "hot_tank_max_temp").isSome (.number devId .hotTankMax) ++
  guardEnt (dev.parameters "hot_tank_outdoor_reset").isSome (.number devId .hotTankOutdoorReset) ++
  guardEnt (dev.parameters "cold_tank_min_temp").isSome (.number devId .coldTankTarget) ++
  guardEnt (dev.parameters "cold_tank_min_temp").isSome (.number devId .coldTankMin) ++
  guardEnt (dev.parameters "cold_tank_max_temp").isSome (.number devId .coldTankMax) ++
  guardEnt (dev.parameters "cold_tank_outdoor_reset").isSome (.number devId .coldTankOutdoorReset) ++
  guardEnt (dev.parameters "warm_weather_shutdown").isSome (.number devId .warmWeatherShutdown) ++
  guardEnt (dev.parameters "cold_weather_shutdown").isSome (.number devId .coldWeatherShutdown) ++
  guardEnt (dev.parameters "stage_on_lag_time").isSome (.number devId .stageOnLag) ++
  guardEnt (dev.parameters "stage_off_lag_time").isSome (.number devId .stageOffLag) ++
  guardEnt (dev.parameters "rotate_cycles").isSome (.number devId .rotateCycles) ++
  guardEnt (dev.parameters "rotate_time").isSome (.number devId .rotateTime) ++
  guardEnt (dev.parameters "backup_lag_time").isSome (.number devId .backupLag) ++
  guardEnt (dev.parameters "backup_differential").isSome (.number devId .backupDifferential) ++
  guardEnt (dev.parameters "hot_tank_differential").isSome (.number devId .hotTankDifferential) ++
  guardEnt (dev.parameters "cold_tank_differential").isSome (.number devId .coldTankDifferential) ++
  guardEnt (dev.parameters "backup_only_outdoor_temp").isSome (.number devId .backupOnlyOutdoorTemp) ++
  guardEnt (dev.parameters "number_of_stages").isSome (.number devId .numberOfStages) ++
  guardEnt (dev.parameters "backup_temp").isSome (.number devId .backupTemp) ++
  guardEnt (dev.parameters "weather_shutdown_lag_time").isSome (.number devId .weatherShutdownLag) ++
  guardEnt (dev.parameters "heat_cool_switch_delay").isSome (.number devId .heatCoolSwitchDelay) ++
  guardEnt (dev.parameters "backup_only_tank_temp").isSome (.number devId .backupOnlyTankTemp)

/-- Embeds `number.py`'s `async_setup_entry`: entities over all devices,
none when there is no coordinator data. -/
def numberSetupEntities (data : Option CoordData) : List Entity :=
  match data with
  | none => []
  | some d => d.devices.flatMap (fun kv => deviceNumberEntities kv.1 kv.2)

/-- The binary-sensor entities created for one device
(`binary_sensor.py` lines 53-137), in source order: the two description
keys guarded by presence, two entities per heat-pump stage, and two backup
entities when `backup_state` is truthy. -/
def deviceBinaryEntities (devId : Option String) (dev : StoredDevice) : List Entity :=
  guardEnt (dev.parameters "permanent_heat_demand").isSome (.binarySensor devId "permanent_heat_demand") ++
  guardEnt (dev.parameters "permanent_cool_demand").isSome (.binarySensor devId "permanent_cool_demand") ++
  (stagesOf dev.parameters).flatMap (fun st =>
    [.hpStageBinary devId (stageTitleOf st) "running" "activated",
     .hpStageBinary devId (stageTitleOf st) "enabled" "enabled"]) ++
  (match truthyGet dev.parameters "backup_state" with
   | some v =>
     [.backupBinary devId (backupTitleOf v) "running" "activated",
      .backupBinary devId (backupTitleOf v) "enabled" "enabled"]
   | none => [])

/-- Embeds `binary_sensor.py`'s `async_setup_entry`. -/
def binarySetupEntities (data : Option CoordData) : List Entity :=
  match data with
  | none => []
  | some d => d.devices.flatMap (fun kv => deviceBinaryEntities kv.1 kv.2)

/-- The sensor entities created for one device (`sensor.py` lines 77-129):
four description keys guarded by presence, one runtime sensor per
heat-pump stage, and one backup runtime sensor when `backup_state` is
truthy. -/
def deviceSensorEntities (devId : Option String) (dev : StoredDevice) : List Entity :=
  guardEnt (dev.parameters "temperature_tank").isSome (.sensor devId "temperature_tank") ++
  guardEnt (dev.parameters "temperature_outdoor").isSome (.sensor devId "temperature_outdoor") ++
  guardEnt (dev.parameters "firmware_version").isSome (.sensor devId "firmware_version") ++
  guardEnt (dev.parameters "device_type").isSome (.sensor devId "device_type") ++
  (stagesOf dev.parameters).flatMap (fun st => [.hpStageRuntime devId (stageTitleOf st)]) ++
  (match truthyGet dev.parameters "backup_state" with
   | some v => [.backupRuntime devId (backupTitleOf v)]
   | none => [])

/-- Embeds `sensor.py`'s `async_setup_entry`. -/
def sensorSetupEntities (data : Option CoordData) : List Entity :=
  match data with
  | none => []
  | some d => d.devices.flatMap (fun kv => deviceSensorEntities kv.1 kv.2)

/-! ### Write traces of the target-temperature controls -/

/-- A `Temperature(value, unit)` argument passed to a vendor setter. -/
structure TemperatureArg where
  value : Int
  unit : String
deriving DecidableEq

/-- The awaited vendor/coordinator calls a number entity's
`async_set_native_value` can make. -/
inductive ClientCall where
  | setHotTankMinTemp (t : TemperatureArg)
  | setHotTankMaxTemp (t : TemperatureArg)
  | setColdTankMinTemp (t : TemperatureArg)
  | setColdTankMaxTemp (t : TemperatureArg)
  | requestRefresh
deriving DecidableEq

/-- Embeds `HotTankTargetTemperature.async_set_native_value` (`number.py`
lines 385-396): the sequence of awaited calls it makes for value `v`. -/
def hotTankTargetSetNativeValue (v : Int) : List ClientCall :=
  [.setHotTankMinTemp ⟨v, "F"⟩, .setHotTankMaxTemp ⟨v, "F"⟩, .requestRefresh]

/-- Embeds `ColdTankTargetTemperature.async_set_native_value` (`number.py`
lines 740-751). -/
def coldTankTargetSetNativeValue (v : Int) : List ClientCall :=
  [.setColdTankMinTemp ⟨v, "F"⟩, .setColdTankMaxTemp ⟨v, "F"⟩, .requestRefresh]

/-- Distinguishes vendor-client writes from the coordinator refresh
request. -/
def isWriteCall : ClientCall → Bool
  | .requestRefresh => false
  | _ => true

/-! ### How the devices dict is keyed -/

/-- The claim-level keying property: an entry of the devices dict is keyed
by the device's nonempty `syncCode` when it has one, and by its `id`
otherwise. -/
def keyedBySyncCode (k : Option String) (sd : StoredDevice) : Prop :=
  (∃ s, sd.syncCode = some s ∧ s ≠ "" ∧ k = some s) ∨
    ((sd.syncCode = none ∨ sd.syncCode = some "") ∧ k = sd.id)

/-- The number entity kinds in the order their guards appear in
`async_setup_entry`. -/
def numberKindTable : List NumberKind :=
  [.hotTankTarget, .hotTankMin, .hotTankMax, .hotTankOutdoorReset,
   .coldTankTarget, .coldTankMin, .coldTankMax, .coldTankOutdoorReset,
   .warmWeatherShutdown, .coldWeatherShutdown, .stageOnLag, .stageOffLag,
   .rotateCycles, .rotateTime, .backupLag, .backupDifferential,
   .hotTankDifferential, .coldTankDifferential, .backupOnlyOutdoorTemp,
   .numberOfStages, .backupTemp, .weatherShutdownLag, .heatCoolSwitchDelay,
   .backupOnlyTankTemp]

/-! ### Concrete sample data used by witnesses and counterexamples -/

/-- Per-device fetch results where every call succeeds. -/
def sampleFetches : DeviceFetches :=
  { temperatures := .ok []
    permanentHeatDemand := .ok (.pybool true)
    permanentCoolDemand := .ok (.pybool false)
    hvacModePriority := .ok 0
    hotTankMinTemp := .ok (.pyint 100)
    hotTankMaxTemp := .ok (.pyint 140)
    hotTankOutdoorReset := .ok (.pystr "off")
    coldTankMinTemp := .ok (.pyint 40)
    coldTankMaxTemp := .ok (.pyint 55)
    coldTankOutdoorReset := .ok (.pystr "off")
    firmwareVersion := .ok (.pystr "1.0")
    deviceType := .ok (.pystr "ECO")
    warmWeatherShutdown := .ok (.pystr "off")
    coldWeatherShutdown := .ok (.pystr "off")
    heatpumpStagesState := .ok []
    backupState := .ok none }

/-- Per-device fetch results where exactly the temperature-bundle fetch
raises and every other fetch succeeds. -/
def c1FailFetches : DeviceFetches :=
  { sampleFetches with temperatures := .error (.otherExc "boom") }

/-- A device carrying both a truthy `syncCode` and a fallback `id`. -/
def sampleDevice : ApiDevice :=
  { syncCode := some "SYNC123"
    id := some "fallback_id"
    name := some "Test"
    fetches := sampleFetches }

def sampleBuilding : Building :=
  { id := some "b1", devicesResult := .ok [sampleDevice] }

/-- An oracle for a fully successful update. -/
def sampleOracle : ApiOracle :=
  { login := .ok ()
    profile := .ok (.pystr "user")
    buildings := .ok [sampleBuilding] }

/-- An oracle whose login succeeds but whose profile is falsy. -/
def authOracle : ApiOracle :=
  { login := .ok ()
    profile := .ok .pynone
    buildings := .ok [] }

/-- An oracle whose login raises an ordinary exception. -/
def failOracle : ApiOracle :=
  { login := .error (.otherExc "Connection refused")
    profile := .ok .pynone
    buildings := .ok [] }

/-- Parameters of a device whose `hot_tank_outdoor_reset` is `"off"`. -/
def offParams : Params := fun k =>
  if k = "hot_tank_outdoor_reset" then some (.pystr "off")
  else if k = "target_temperature_tank" then some (.pyint 120)
  else none

def offDevice : StoredDevice :=
  { syncCode := some "SYNC"
    id := some "id1"
    name := some "Dev"
    parameters := offParams
    building_id := some "b1" }

def offData : CoordData :=
  { profile := .pystr "u", buildings := [], devices := [(some "SYNC", offDevice)] }

def offState : CoordState := { lastUpdateSuccess := true, data := some offData }

/-- Parameters of a device whose `hot_tank_outdoor_reset` holds a
non-`"off"` design temperature. -/
def onParams : Params := fun k =>
  if k = "hot_tank_outdoor_reset" then some (.pyint 14) else none

def onDevice : StoredDevice :=
  { syncCode := some "SYNC"
    id := some "id1"
    name := some "Dev"
    parameters := onParams
    building_id := some "b1" }

def onData : CoordData :=
  { profile := .pystr "u", buildings := [], devices := [(some "SYNC", onDevice)] }

def onState : CoordState := { lastUpdateSuccess := true, data := some onData }

/-- Parameters for a device supporting several entity families. -/
def witParams : Params := fun k =>
  if k = "permanent_heat_demand" then some (.pybool true)
  else if k = "hot_tank_min_temp" then some (.pyint 100)
  else if k = "heatpump_stages" then
    some (.pystages [{ title := some "Stage 1", activated := some true, enabled := some false }])
  else if k = "backup_state" then
    some (.pybackup { title := some "Backup", activated := some false, enabled := some true })
  else none

def witDevice : StoredDevice :=
  { syncCode := some "W"
    id := some "wid"
    name := some "WDev"
    parameters := witParams
    building_id := some "b" }

def witData : CoordData :=
  { profile := .pystr "u", buildings := [], devices := [(some "W", witDevice)] }

/-- Parameters for a device with no `backup_state` key at all. -/
def noBackupParams : Params := fun k =>
  if k = "permanent_heat_demand" then some (.pybool true) else none

def noBackupDevice : StoredDevice :=
  { syncCode := some "E"
    id := some "eid"
    name := some "EDev"
    parameters := noBackupParams
    building_id := some "b" }

def noBackupData : CoordData :=
  { profile := .pystr "u", buildings := [], devices := [(some "E", noBackupDevice)] }

/-- A successful snapshot containing no devices at all. -/
def goneData : CoordData :=
  { profile := .pystr "u", buildings := [], devices := [] }

def goneState : CoordState := { lastUpdateSuccess := true, data := some goneData }

/-! ### Supporting lemmas and claim theorems -/

theorem pset_self (m : Params) (k : String) (v : PyValue) :
    pset m k v k = some v := by
  simp [pset]

theorem pset_ne (m : Params) (k : String) (v : PyValue) (k' : String)
    (h : k' ≠ k) : pset m k v k' = m k' := by
  simp [pset, h]

theorem addFetch_ok (m : Params) (k : String) (v : PyValue) :
    addFetch m k (.ok v) = pset m k v := rfl

theorem addFetch_error (m : Params) (k : String) (e : Exc) :
    addFetch m k (.error e) = m := rfl

theorem addFetch_ne (m : Params) (k : String) (r : Except Exc PyValue)
    (k' : String) (h : k' ≠ k) : addFetch m k r k' = m k' := by
  cases r <;> simp [addFetch, pset, h]

theorem addHvac_ne (m : Params) (r : Except Exc Int) (k' : String)
    (h : k' ≠ "hvac_mode") : addHvac m r k' = m k' := by
  cases r <;> simp [addHvac, pset, h]

theorem addStages_ne (m : Params) (r : Except Exc (List StageInfo))
    (k' : String) (h : k' ≠ "heatpump_stages") : addStages m r k' = m k' := by
  cases r with
  | ok l =>
    by_cases hl : l.isEmpty <;> simp [addStages, hl, pset, h]
  | error e => simp [addStages]

theorem addBackup_ne (m : Params) (r : Except Exc (Option BackupInfo))
    (k' : String) (h : k' ≠ "backup_state") : addBackup m r k' = m k' := by
  rcases r with r | r
  · simp [addBackup]
  · cases r <;> simp [addBackup, pset, h]

theorem ne_of_head_ne {a b : String} (h : a.data.head? ≠ b.data.head?) :
    a ≠ b := fun he => h (by rw [he])

theorem head_temperature_append (s : String) :
    ("temperature_" ++ s).data.head? = some 't' := by
  rw [String.data_append]
  rfl

theorem head_target_append (s : String) :
    ("target_temperature_" ++ s).data.head? = some 't' := by
  rw [String.data_append]
  rfl

/-- The keys written from the temperature bundle all start with `t`; no
other parameter key does, so temperature writes never touch them. -/
theorem addTempEntry_ne (m : Params) (nm : String) (te : TempEntry)
    (k : String) (h : k.data.head? ≠ some 't') : addTempEntry m nm te k = m k := by
  have h1 : k ≠ "temperature_" ++ normalizeTempName nm :=
    ne_of_head_ne (by rw [head_temperature_append]; exact h)
  have h2 : k ≠ "target_temperature_" ++ normalizeTempName nm :=
    ne_of_head_ne (by rw [head_target_append]; exact h)
  unfold addTempEntry
  cases te.actual <;> cases te.target <;>
    simp [pset_ne _ _ _ _ h1, pset_ne _ _ _ _ h2]

theorem tempParams_ne (ts : List (String × TempEntry)) (k : String)
    (h : k.data.head? ≠ some 't') : tempParams ts k = none := by
  suffices hgen : ∀ m : Params,
      ts.foldl (fun m it => addTempEntry m it.1 it.2) m k = m k by
    rw [tempParams, hgen]
    rfl
  intro m
  induction ts generalizing m with
  | nil => rfl
  | cons it rest ih => rw [List.foldl_cons, ih, addTempEntry_ne _ _ _ _ h]

theorem bp_permanent_heat (f : DeviceFetches) (ts : List (String × TempEntry))
    (h : f.temperatures = .ok ts) :
    buildParameters f "permanent_heat_demand" = excToOption f.permanentHeatDemand := by
  cases hr : f.permanentHeatDemand with
  | ok v =>
    simp [buildParameters, h, hr, addFetch_ne, addHvac_ne, addStages_ne,
      addBackup_ne, addFetch_ok, pset_self, excToOption]
  | error e =>
    simp [buildParameters, h, hr, addFetch_ne, addHvac_ne, addStages_ne,
      addBackup_ne, addFetch_error, excToOption]
    exact tempParams_ne _ _ (by decide)

theorem bp_permanent_cool (f : DeviceFetches) (ts : List (String × TempEntry))
    (h : f.temperatures = .ok ts) :
    buildParameters f "permanent_cool_demand" = excToOption f.permanentCoolDemand := by
  cases hr : f.permanentCoolDemand with
  | ok v =>
    simp [buildParameters, h, hr, addFetch_ne, addHvac_ne, addStages_ne,
      addBackup_ne, addFetch_ok, pset_self, excToOption]
  | error e =>
    simp [buildParameters, h, hr, addFetch_ne, addHvac_ne, addStages_ne,
      addBackup_ne, addFetch_error, excToOption]
    exact tempParams_ne _ _ (by decide)

theorem bp_hvac (f : DeviceFetches) (ts : List (String × TempEntry))
    (h : f.temperatures = .ok ts) :
    buildParameters f "hvac_mode" = hvacExpected f.hvacModePriority := by
  cases hr : f.hvacModePriority with
  | ok n =>
    simp [buildParameters, h, hr, addFetch_ne, addHvac, addStages_ne,
      addBackup_ne, pset_self, hvacExpected]
  | error e =>
    simp [buildParameters, h, hr, addFetch_ne, addHvac, addStages_ne,
      addBackup_ne, hvacExpected]
    exact tempParams_ne _ _ (by decide)

theorem bp_hot_tank_min (f : DeviceFetches) (ts : List (String × TempEntry))
    (h : f.temperatures = .ok ts) :
    buildParameters f "hot_tank_min_temp" = excToOption f.hotTankMinTemp := by
  cases hr : f.hotTankMinTemp with
  | ok v =>
    simp [buildParameters, h, hr, addFetch_ne, addHvac_ne, addStages_ne,
      addBackup_ne, addFetch_ok, pset_self, excToOption]
  | error e =>
    simp [buildParameters, h, hr, addFetch_ne, addHvac_ne, addStages_ne,
      addBackup_ne, addFetch_error, excToOption]
    exact tempParams_ne _ _ (by decide)

theorem bp_hot_tank_max (f : DeviceFetches) (ts : List (String × TempEntry))
    (h : f.temperatures = .ok ts) :
    buildParameters f "hot_tank_max_temp" = excToOption f.hotTankMaxTemp := by
  cases hr : f.hotTankMaxTemp with
  | ok v =>
    simp [buildParameters, h, hr, addFetch_ne, addHvac_ne, addStages_ne,
      addBackup_ne, addFetch_ok, pset_self, excToOption]
  | error e =>
    simp [buildParameters, h, hr, addFetch_ne, addHvac_ne, addStages_ne,
      addBackup_ne, addFetch_error, excToOption]
    exact tempParams_ne _ _ (by decide)

theorem bp_hot_tank_or (f : DeviceFetches) (ts : List (String × TempEntry))
    (h : f.temperatures = .ok ts) :
    buildParameters f "hot_tank_outdoor_reset" = excToOption f.hotTankOutdoorReset := by
  cases hr : f.hotTankOutdoorReset with
  | ok v =>
    simp [buildParameters, h, hr, addFetch_ne, addHvac_ne, addStages_ne,
      addBackup_ne, addFetch_ok, pset_self, excToOption]
  | error e =>
    simp [buildParameters, h, hr, addFetch_ne, addHvac_ne, addStages_ne,
      addBackup_ne, addFetch_error, excToOption]
    exact tempParams_ne _ _ (by decide)

theorem bp_cold_tank_min (f : DeviceFetches) (ts : List (String × TempEntry))
    (h : f.temperatures = .ok ts) :
    buildParameters f "cold_tank_min_temp" = excToOption f.coldTankMinTemp := by
  cases hr : f.coldTankMinTemp with
  | ok v =>
    simp [buildParameters, h, hr, addFetch_ne, addHvac_ne, addStages_ne,
      addBackup_ne, addFetch_ok, pset_self, excToOption]
  | error e =>
    simp [buildParameters, h, hr, addFetch_ne, addHvac_ne, addStages_ne,
      addBackup_ne, addFetch_error, excToOption]
    exact tempParams_ne _ _ (by decide)

theorem bp_cold_tank_max (f : DeviceFetches) (ts : List (String × TempEntry))
    (h : f.temperatures = .ok ts) :
    buildParameters f "cold_tank_max_temp" = excToOption f.coldTankMaxTemp := by
  cases hr : f.coldTankMaxTemp with
  | ok v =>
    simp [buildParameters, h, hr, addFetch_ne, addHvac_ne, addStages_ne,
      addBackup_ne, addFetch_ok, pset_self, excToOption]
  | error e =>
    simp [buildParameters, h, hr, addFetch_ne, addHvac_ne, addStages_ne,
      addBackup_ne, addFetch_error, excToOption]
    exact tempParams_ne _ _ (by decide)

theorem bp_cold_tank_or (f : DeviceFetches) (ts : List (String × TempEntry))
    (h : f.temperatures = .ok ts) :
    buildParameters f "cold_tank_outdoor_reset" = excToOption f.coldTankOutdoorReset := by
  cases hr : f.coldTankOutdoorReset with
  | ok v =>
    simp [buildParameters, h, hr, addFetch_ne, addHvac_ne, addStages_ne,
      addBackup_ne, addFetch_ok, pset_self, excToOption]
  | error e =>
    simp [buildParameters, h, hr, addFetch_ne, addHvac_ne, addStages_ne,
      addBackup_ne, addFetch_error, excToOption]
    exact tempParams_ne _ _ (by decide)

theorem bp_firmware (f : DeviceFetches) (ts : List (String × TempEntry))
    (h : f.temperatures = .ok ts) :
    buildParameters f "firmware_version" = excToOption f.firmwareVersion := by
  cases hr : f.firmwareVersion with
  | ok v =>
    simp [buildParameters, h, hr, addFetch_ne, addHvac_ne, addStages_ne,
      addBackup_ne, addFetch_ok, pset_self, excToOption]
  | error e =>
    simp [buildParameters, h, hr, addFetch_ne, addHvac_ne, addStages_ne,
      addBackup_ne, addFetch_error, excToOption]
    exact tempParams_ne _ _ (by decide)

theorem bp_device_type (f : DeviceFetches) (ts : List (String × TempEntry))
    (h : f.temperatures = .ok ts) :
    buildParameters f "device_type" = excToOption f.deviceType := by
  cases hr : f.deviceType with
  | ok v =>
    simp [buildParameters, h, hr, addFetch_ne, addHvac_ne, addStages_ne,
      addBackup_ne, addFetch_ok, pset_self, excToOption]
  | error e =>
    simp [buildParameters, h, hr, addFetch_ne, addHvac_ne, addStages_ne,
      addBackup_ne, addFetch_error, excToOption]
    exact tempParams_ne _ _ (by decide)

theorem bp_warm_weather (f : DeviceFetches) (ts : List (String × TempEntry))
    (h : f.temperatures = .ok ts) :
    buildParameters f "warm_weather_shutdown" = excToOption f.warmWeatherShutdown := by
  cases hr : f.warmWeatherShutdown with
  | ok v =>
    simp [buildParameters, h, hr, addFetch_ne, addHvac_ne, addStages_ne,
      addBackup_ne, addFetch_ok, pset_self, excToOption]
  | error e =>
    simp [buildParameters, h, hr, addFetch_ne, addHvac_ne, addStages_ne,
      addBackup_ne, addFetch_error, excToOption]
    exact tempParams_ne _ _ (by decide)

theorem bp_cold_weather (f : DeviceFetches) (ts : List (String × TempEntry))
    (h : f.temperatures = .ok ts) :
    buildParameters f "cold_weather_shutdown" = excToOption f.coldWeatherShutdown := by
  cases hr : f.coldWeatherShutdown with
  | ok v =>
    simp [buildParameters, h, hr, addFetch_ne, addHvac_ne, addStages_ne,
      addBackup_ne, addFetch_ok, pset_self, excToOption]
  | error e =>
    simp [buildParameters, h, hr, addFetch_ne, addHvac_ne, addStages_ne,
      addBackup_ne, addFetch_error, excToOption]
    exact tempParams_ne _ _ (by decide)

theorem bp_stages (f : DeviceFetches) (ts : List (String × TempEntry))
    (h : f.temperatures = .ok ts) :
    buildParameters f "heatpump_stages" = stagesExpected f.heatpumpStagesState := by
  cases hr : f.heatpumpStagesState with
  | ok l =>
    by_cases hl : l.isEmpty
    · simp [buildParameters, h, hr, hl, addFetch_ne, addHvac_ne, addStages,
        addBackup_ne, stagesExpected]
      exact tempParams_ne _ _ (by decide)
    · simp [buildParameters, h, hr, hl, addFetch_ne, addHvac_ne, addStages,
        addBackup_ne, pset_self, stagesExpected]
  | error e =>
    simp [buildParameters, h, hr, addFetch_ne, addHvac_ne, addStages,
      addBackup_ne, stagesExpected]
    exact tempParams_ne _ _ (by decide)

theorem bp_backup (f : DeviceFetches) (ts : List (String × TempEntry))
    (h : f.temperatures = .ok ts) :
    buildParameters f "backup_state" = backupExpected f.backupState := by
  cases hr : f.backupState with
  | ok ob =>
    cases ob with
    | some b =>
      simp [buildParameters, h, hr, addFetch_ne, addHvac_ne, addStages_ne,
        addBackup, pset_self, backupExpected]
    | none =>
      simp [buildParameters, h, hr, addFetch_ne, addHvac_ne, addStages_ne,
        addBackup, backupExpected]
      exact tempParams_ne _ _ (by decide)
  | error e =>
    simp [buildParameters, h, hr, addFetch_ne, addHvac_ne, addStages_ne,
      addBackup, backupExpected]
    exact tempParams_ne _ _ (by decide)

/-- A failure of the temperature-bundle fetch leaves the per-device
parameter map empty: the outer handler catches it before any later fetch
runs. -/
theorem buildParameters_temps_error (f : DeviceFetches) (e : Exc) (k : String) :
    buildParameters { f with temperatures := Except.error e } k = none := rfl

/-- Whatever the per-device fetch results are, once login, profile and
buildings succeed the update returns a snapshot. -/
theorem asyncUpdateData_ok (o : ApiOracle) (p : PyValue) (bs : List Building)
    (hl : o.login = .ok ()) (hp : o.profile = .ok p) (ht : pyTruthy p = true)
    (hb : o.buildings = .ok bs) :
    asyncUpdateData o = .ok ⟨p, bs, buildDevices bs⟩ := by
  simp [asyncUpdateData, asyncUpdateDataBody, hl, hp, ht, hb, bind, Except.bind,
    pure, Except.pure]

theorem keyedBySyncCode_store (b : Building) (d : ApiDevice) :
    keyedBySyncCode (deviceKey d) (storeDevice b d) := by
  unfold keyedBySyncCode deviceKey storeDevice
  cases hsc : d.syncCode with
  | none => exact Or.inr ⟨Or.inl rfl, rfl⟩
  | some s =>
    by_cases hs : s = ""
    · subst hs
      exact Or.inr ⟨Or.inr rfl, by simp⟩
    · exact Or.inl ⟨s, rfl, hs, by simp [hs]⟩

theorem lookupKV_map_replace (m : DevMap) (kk : Option String)
    (vv : StoredDevice) (k : Option String) (sd : StoredDevice)
    (h : lookupKV (m.map (fun kv => if kv.1 = kk then (kk, vv) else kv)) k = some sd) :
    (k = kk ∧ sd = vv) ∨ lookupKV m k = some sd := by
  induction m with
  | nil => exact absurd h (by simp [lookupKV])
  | cons hd rest ih =>
    by_cases h1 : hd.1 = kk
    · simp only [List.map_cons, if_pos h1] at h
      by_cases h2 : kk = k
      · subst h2
        rw [lookupKV, if_pos rfl] at h
        exact Or.inl ⟨rfl, (Option.some_injective _ h).symm⟩
      · rw [lookupKV, if_neg h2] at h
        rcases ih h with hl | hr
        · exact Or.inl hl
        · right
          rw [lookupKV, if_neg (h1 ▸ h2)]
          exact hr
    · simp only [List.map_cons, if_neg h1] at h
      by_cases h2 : hd.1 = k
      · right
        rw [lookupKV, if_pos h2] at h ⊢
        exact h
      · rw [lookupKV, if_neg h2] at h
        rcases ih h with hl | hr
        · exact Or.inl hl
        · right
          rw [lookupKV, if_neg h2]
          exact hr

theorem lookupKV_append_single (m : DevMap) (kk : Option String)
    (vv : StoredDevice) (k : Option String) (sd : StoredDevice)
    (h : lookupKV (m ++ [(kk, vv)]) k = some sd) :
    (k = kk ∧ sd = vv) ∨ lookupKV m k = some sd := by
  induction m with
  | nil =>
    simp only [List.nil_append] at h
    by_cases h2 : kk = k
    · subst h2
      rw [lookupKV, if_pos rfl] at h
      exact Or.inl ⟨rfl, (Option.some_injective _ h).symm⟩
    · rw [lookupKV, if_neg h2] at h
      exact absurd h (by simp [lookupKV])
  | cons hd rest ih =>
    rw [List.cons_append] at h
    by_cases h2 : hd.1 = k
    · right
      rw [lookupKV, if_pos h2] at h ⊢
      exact h
    · rw [lookupKV, if_neg h2] at h
      rcases ih h with hl | hr
      · exact Or.inl hl
      · right
        rw [lookupKV, if_neg h2]
        exact hr

theorem lookupKV_insertKV_cases (m : DevMap) (kk : Option String)
    (vv : StoredDevice) (k : Option String) (sd : StoredDevice)
    (h : lookupKV (insertKV m kk vv) k = some sd) :
    (k = kk ∧ sd = vv) ∨ lookupKV m k = some sd := by
  unfold insertKV at h
  by_cases hc : m.any (fun kv => kv.1 = kk)
  · rw [if_pos hc] at h
    exact lookupKV_map_replace m kk vv k sd h
  · rw [if_neg hc] at h
    exact lookupKV_append_single m kk vv k sd h

theorem lookupKV_device_fold (b : Building) (ds : List ApiDevice)
    (acc : DevMap)
    (hacc : ∀ k sd, lookupKV acc k = some sd → keyedBySyncCode k sd)
    (k : Option String) (sd : StoredDevice)
    (h : lookupKV
      (ds.foldl (fun a d => insertKV a (deviceKey d) (storeDevice b d)) acc) k
      = some sd) :
    keyedBySyncCode k sd := by
  induction ds generalizing acc with
  | nil => exact hacc _ _ h
  | cons d rest ih =>
    rw [List.foldl_cons] at h
    refine ih _ ?_ h
    intro k' sd' h'
    rcases lookupKV_insertKV_cases _ _ _ _ _ h' with ⟨hk, hv⟩ | h''
    · subst hk
      subst hv
      exact keyedBySyncCode_store b d
    · exact hacc _ _ h''

theorem lookupKV_building_fold (bs : List Building) :
    ∀ acc : DevMap,
      (∀ k' sd', lookupKV acc k' = some sd' → keyedBySyncCode k' sd') →
      ∀ k' sd', lookupKV (bs.foldl addBuildingDevices acc) k' = some sd' →
        keyedBySyncCode k' sd' := by
  induction bs with
  | nil => intro acc hacc k' sd' h'; exact hacc _ _ h'
  | cons b rest ih =>
    intro acc hacc k' sd' h'
    rw [List.foldl_cons] at h'
    refine ih _ ?_ k' sd' h'
    intro k'' sd'' h''
    unfold addBuildingDevices at h''
    cases hdr : b.devicesResult with
    | error e =>
      rw [hdr] at h''
      exact hacc _ _ h''
    | ok ds =>
      rw [hdr] at h''
      exact lookupKV_device_fold b ds acc hacc _ _ h''

theorem lookupKV_buildDevices_keyed (bs : List Building)
    (k : Option String) (sd : StoredDevice)
    (h : lookupKV (buildDevices bs) k = some sd) :
    keyedBySyncCode k sd :=
  lookupKV_building_fold bs []
    (fun k' sd' h' => absurd h' (by simp [lookupKV])) k sd h

/-! ### Membership lemmas for the platform setup functions -/

theorem mem_guardEnt {b : Bool} {e x : Entity} :
    x ∈ guardEnt b e ↔ b = true ∧ x = e := by
  cases b <;> simp [guardEnt]

theorem stagesOf_mem_isSome (m : Params) (st : StageInfo)
    (h : st ∈ stagesOf m) : (m "heatpump_stages").isSome = true := by
  unfold stagesOf at h
  cases hm : m "heatpump_stages" with
  | none => rw [hm] at h; simp at h
  | some v => simp [hm]

theorem truthyGet_isSome (m : Params) (k : String) (v : PyValue)
    (h : truthyGet m k = some v) : (m k).isSome = true := by
  unfold truthyGet at h
  cases hm : m k with
  | none => rw [hm] at h; simp at h
  | some w => simp [hm]

theorem truthyGet_eq_none (m : Params) (k : String)
    (h : pyTruthy (pget m k) = false) : truthyGet m k = none := by
  unfold truthyGet
  unfold pget at h
  cases hm : m k with
  | none => rfl
  | some v =>
    rw [hm] at h
    simp only [Option.getD_some] at h
    simp [h]

theorem deviceNumberEntities_eq_table (devId : Option String)
    (dev : StoredDevice) :
    deviceNumberEntities devId dev = numberKindTable.flatMap
      (fun kind => guardEnt (dev.parameters (numberGuardKey kind)).isSome
        (Entity.number devId kind)) := by
  simp [deviceNumberEntities, numberKindTable, numberGuardKey,
    List.append_assoc]

theorem mem_deviceNumberEntities (devId : Option String) (dev : StoredDevice)
    (ent : Entity) (h : ent ∈ deviceNumberEntities devId dev) :
    ∃ kind, ent = Entity.number devId kind ∧
      (dev.parameters (numberGuardKey kind)).isSome = true := by
  rw [deviceNumberEntities_eq_table, List.mem_flatMap] at h
  obtain ⟨kind, _, hg⟩ := h
  rw [mem_guardEnt] at hg
  exact ⟨kind, hg.2, hg.1⟩

theorem binarySensor_mem_deviceBinary (devId devId' : Option String)
    (dev : StoredDevice) (key : String)
    (h : Entity.binarySensor devId' key ∈ deviceBinaryEntities devId dev) :
    devId' = devId ∧ (dev.parameters key).isSome = true := by
  unfold deviceBinaryEntities at h
  rw [List.mem_append, List.mem_append, List.mem_append] at h
  rcases h with ((h | h) | h) | h
  · rw [mem_guardEnt] at h
    obtain ⟨hp, he⟩ := h
    rw [Entity.binarySensor.injEq] at he
    obtain ⟨rfl, rfl⟩ := he
    exact ⟨rfl, hp⟩
  · rw [mem_guardEnt] at h
    obtain ⟨hp, he⟩ := h
    rw [Entity.binarySensor.injEq] at he
    obtain ⟨rfl, rfl⟩ := he
    exact ⟨rfl, hp⟩
  · rw [List.mem_flatMap] at h
    obtain ⟨st, _, h⟩ := h
    simp at h
  · cases htg : truthyGet dev.parameters "backup_state" <;> rw [htg] at h <;>
      simp at h

theorem hpStageBinary_mem_deviceBinary (devId devId' : Option String)
    (dev : StoredDevice) (title sty dk : String)
    (h : Entity.hpStageBinary devId' title sty dk ∈ deviceBinaryEntities devId dev) :
    devId' = devId ∧ (dev.parameters "heatpump_stages").isSome = true := by
  unfold deviceBinaryEntities at h
  rw [List.mem_append, List.mem_append, List.mem_append] at h
  rcases h with ((h | h) | h) | h
  · rw [mem_guardEnt] at h
    exact absurd h.2 (by simp)
  · rw [mem_guardEnt] at h
    exact absurd h.2 (by simp)
  · rw [List.mem_flatMap] at h
    obtain ⟨stg, hstg, h⟩ := h
    have hkey := stagesOf_mem_isSome dev.parameters stg hstg
    rcases List.mem_cons.mp h with he | h
    · rw [Entity.hpStageBinary.injEq] at he
      exact ⟨he.1, hkey⟩
    · rcases List.mem_cons.mp h with he | h
      · rw [Entity.hpStageBinary.injEq] at he
        exact ⟨he.1, hkey⟩
      · simp at h
  · cases htg : truthyGet dev.parameters "backup_state" <;> rw [htg] at h <;>
      simp at h

theorem backupBinary_mem_deviceBinary (devId devId' : Option String)
    (dev : StoredDevice) (title sty dk : String)
    (h : Entity.backupBinary devId' title sty dk ∈ deviceBinaryEntities devId dev) :
    devId' = devId ∧ ∃ v, truthyGet dev.parameters "backup_state" = some v := by
  unfold deviceBinaryEntities at h
  rw [List.mem_append, List.mem_append, List.mem_append] at h
  rcases h with ((h | h) | h) | h
  · rw [mem_guardEnt] at h
    exact absurd h.2 (by simp)
  · rw [mem_guardEnt] at h
    exact absurd h.2 (by simp)
  · rw [List.mem_flatMap] at h
    obtain ⟨st, _, h⟩ := h
    simp at h
  · cases htg : truthyGet dev.parameters "backup_state" with
    | none => rw [htg] at h; simp at h
    | some v =>
      rw [htg] at h
      rcases List.mem_cons.mp h with he | h
      · rw [Entity.backupBinary.injEq] at he
        exact ⟨he.1, v, rfl⟩
      · rcases List.mem_cons.mp h with he | h
        · rw [Entity.backupBinary.injEq] at he
          exact ⟨he.1, v, rfl⟩
        · simp at h

theorem backupRuntime_mem_deviceSensor (devId devId' : Option String)
    (dev : StoredDevice) (title : String)
    (h : Entity.backupRuntime devId' title ∈ deviceSensorEntities devId dev) :
    devId' = devId ∧ ∃ v, truthyGet dev.parameters "backup_state" = some v := by
  unfold deviceSensorEntities at h
  rw [List.mem_append, List.mem_append, List.mem_append, List.mem_append,
    List.mem_append] at h
  rcases h with ((((h | h) | h) | h) | h) | h
  · rw [mem_guardEnt] at h
    exact absurd h.2 (by simp)
  · rw [mem_guardEnt] at h
    exact absurd h.2 (by simp)
  · rw [mem_guardEnt] at h
    exact absurd h.2 (by simp)
  · rw [mem_guardEnt] at h
    exact absurd h.2 (by simp)
  · rw [List.mem_flatMap] at h
    obtain ⟨st, _, h⟩ := h
    simp at h
  · cases htg : truthyGet dev.parameters "backup_state" with
    | none => rw [htg] at h; simp at h
    | some v =>
      rw [htg] at h
      rcases List.mem_cons.mp h with he | h
      · rw [Entity.backupRuntime.injEq] at he
        exact ⟨he.1, v, rfl⟩
      · simp at h

/-! ### Inversion of a successful update -/

theorem asyncUpdateDataBody_ok_devices (o : ApiOracle) (d : CoordData)
    (h : asyncUpdateDataBody o = .ok d) :
    d.devices = buildDevices d.buildings := by
  unfold asyncUpdateDataBody at h
  cases hl : o.login with
  | error e => rw [hl] at h; simp [bind, Except.bind] at h
  | ok u =>
    rw [hl] at h
    cases hp : o.profile with
    | error e => simp [hp, bind, Except.bind] at h
    | ok p =>
      simp only [hp, bind, Except.bind] at h
      by_cases ht : pyTruthy p
      · rw [if_pos ht] at h
        cases hb : o.buildings with
        | error e => rw [hb] at h; simp [bind, Except.bind] at h
        | ok bs =>
          rw [hb] at h
          simp only [bind, Except.bind, pure, Except.pure, Except.ok.injEq] at h
          rw [← h]
      · rw [if_neg ht] at h
        simp [throw, throwThe, MonadExceptOf.throw] at h

theorem pyEqStr_eq_false {v : PyValue} {s : String} (h : v ≠ .pystr s) :
    pyEqStr v s = false := by
  cases v <;> simp_all [pyEqStr]

theorem pyIsNone_eq_false {v : PyValue} (h : v ≠ .pynone) :
    pyIsNone v = false := by
  cases v <;> simp_all [pyIsNone]

/-! ### Claim theorems -/

/-- C2: when login succeeds and `get_profile` returns a falsy result, the
update raises `ConfigEntryAuthFailed`, which the outer handlers re-raise
unchanged — the outcome is the auth-failed condition, never the generic
`UpdateFailed` one. -/
theorem c2_no_profile_raises_auth_failed (o : ApiOracle) (p : PyValue)
    (hl : o.login = .ok ()) (hp : o.profile = .ok p)
    (ht : pyTruthy p = false) :
    asyncUpdateData o = .authFailed "Failed to get user profile" := by
  simp [asyncUpdateData, asyncUpdateDataBody, hl, hp, ht, bind, Except.bind,
    throw, throwThe, MonadExceptOf.throw]

/-- C2 witness: a concrete oracle with a successful login and a `None`
profile yields the auth-failed outcome. -/
theorem c2_no_profile_raises_auth_failed_witness :
    asyncUpdateData authOracle = .authFailed "Failed to get user profile" :=
  c2_no_profile_raises_auth_failed authOracle .pynone rfl rfl rfl

/-- C7: any exception escaping the body of `_async_update_data` that is not
`ConfigEntryAuthFailed` is wrapped into the generic `UpdateFailed`
condition (so the update is retried rather than triggering
re-authentication). -/
theorem c7_other_exceptions_wrapped_in_update_failed (o : ApiOracle)
    (m : String) (h : asyncUpdateDataBody o = .error (.otherExc m)) :
    asyncUpdateData o = .updateFailed ("Error communicating with API: " ++ m) := by
  simp [asyncUpdateData, h]

/-- C7 witness: a concrete oracle whose login raises an ordinary exception
yields the update-failed outcome wrapping the message. -/
theorem c7_other_exceptions_wrapped_in_update_failed_witness :
    asyncUpdateData failOracle =
      .updateFailed ("Error communicating with API: " ++ "Connection refused") :=
  c7_other_exceptions_wrapped_in_update_failed failOracle "Connection refused" rfl

/-- C3: the poll interval is the configured value clamped to
`[60, 3600]`, defaulting to 300 when no value is configured.  The clamping
step is spec-modelled (`configFlowStoredScanInterval`), since
`config_flow.py` is not under `src/`; the coordinator's unclamped read and
the 300 default are embedded from the source. -/
theorem c3_poll_interval_clamped :
    effectivePollInterval Option.none = 300
    ∧ (∀ v : Int, v < 60 → effectivePollInterval (some v) = 60)
    ∧ (∀ v : Int, 3600 < v → effectivePollInterval (some v) = 3600)
    ∧ (∀ v : Int, 60 ≤ v → v ≤ 3600 → effectivePollInterval (some v) = v) := by
  refine ⟨rfl, ?_, ?_, ?_⟩ <;> intro v <;> intros <;>
    simp [effectivePollInterval, coordinatorScanInterval,
      configFlowStoredScanInterval, DEFAULT_SCAN_INTERVAL, MIN_SCAN_INTERVAL,
      MAX_SCAN_INTERVAL, min_def, max_def] <;> split_ifs <;> omega

/-- C3 witness: concrete configured values below, above and inside the
range, plus the unconfigured default. -/
theorem c3_poll_interval_clamped_witness :
    effectivePollInterval (some 30) = 60
    ∧ effectivePollInterval (some 4000) = 3600
    ∧ effectivePollInterval (some 300) = 300 :=
  ⟨c3_poll_interval_clamped.2.1 30 (by decide),
   c3_poll_interval_clamped.2.2.1 4000 (by decide),
   c3_poll_interval_clamped.2.2.2 300 (by decide) (by decide)⟩

/-- C9: when a successful snapshot no longer contains an entity's device
id, the entity's `available` reads false (shown for the binary-sensor
availability and the `StageOnLagTime` availability cited by the claim). -/
theorem c9_unavailable_when_device_disappears (st : CoordState)
    (d : CoordData) (devId : Option String)
    (_hs : st.lastUpdateSuccess = true) (hd : st.data = some d)
    (h : lookupKV d.devices devId = none) :
    sensorLinxBinarySensorAvailable st devId = false
    ∧ stageOnLagTimeAvailable st devId = false := by
  constructor <;>
    simp [sensorLinxBinarySensorAvailable, stageOnLagTimeAvailable, hd, h]

/-- C9 witness: a successful snapshot with no devices makes both cited
availability properties false for a device id from an earlier snapshot. -/
theorem c9_unavailable_when_device_disappears_witness :
    sensorLinxBinarySensorAvailable goneState (some "gone") = false
    ∧ stageOnLagTimeAvailable goneState (some "gone") = false :=
  c9_unavailable_when_device_disappears goneState goneData (some "gone")
    rfl rfl rfl

/-- C10: setting the hot-tank (resp. cold-tank) target temperature issues
exactly two vendor writes — the tank's min setter and max setter, both with
the same Fahrenheit temperature — followed by a refresh request. -/
theorem c10_target_write_trace (v : Int) :
    (hotTankTargetSetNativeValue v).filter isWriteCall =
      [ClientCall.setHotTankMinTemp ⟨v, "F"⟩, ClientCall.setHotTankMaxTemp ⟨v, "F"⟩]
    ∧ hotTankTargetSetNativeValue v =
      (hotTankTargetSetNativeValue v).filter isWriteCall ++ [ClientCall.requestRefresh]
    ∧ (coldTankTargetSetNativeValue v).filter isWriteCall =
      [ClientCall.setColdTankMinTemp ⟨v, "F"⟩, ClientCall.setColdTankMaxTemp ⟨v, "F"⟩]
    ∧ coldTankTargetSetNativeValue v =
      (coldTankTargetSetNativeValue v).filter isWriteCall ++ [ClientCall.requestRefresh] :=
  ⟨rfl, rfl, rfl, rfl⟩

/-- C4: for a device present in a successful snapshot, when
`hot_tank_outdoor_reset` reads the sentinel `"off"` the target-temperature
entity is available (and its value reads the snapshot's
`target_temperature_tank`) while the min and max entities are unavailable;
when the key holds any value other than `"off"` (and other than Python's
`None`, which the code treats as no value), the target entity is
unavailable while the min and max entities are available. -/
theorem c4_outdoor_reset_gates_target_vs_min_max (st : CoordState)
    (d : CoordData) (devId : Option String) (dev : StoredDevice)
    (hs : st.lastUpdateSuccess = true) (hd : st.data = some d)
    (hdev : lookupKV d.devices devId = some dev) :
    (pget dev.parameters "hot_tank_outdoor_reset" = .pystr "off" →
      hotTankTargetAvailable st devId = true
      ∧ hotTankTargetNativeValue st devId = pget dev.parameters "target_temperature_tank"
      ∧ hotTankMinAvailable st devId = false
      ∧ hotTankMaxAvailable st devId = false)
    ∧ (∀ v : PyValue, dev.parameters "hot_tank_outdoor_reset" = some v →
        v ≠ .pystr "off" → v ≠ .pynone →
        hotTankTargetAvailable st devId = false
        ∧ hotTankMinAvailable st devId = true
        ∧ hotTankMaxAvailable st devId = true) := by
  constructor
  · intro hoff
    refine ⟨?_, ?_, ?_, ?_⟩ <;>
      simp [hotTankTargetAvailable, hotTankTargetNativeValue,
        hotTankMinAvailable, hotTankMaxAvailable, hd, hdev, hs, hoff,
        pyEqStr, pyIsNone]
  · intro v hv hne hnn
    have hpget : pget dev.parameters "hot_tank_outdoor_reset" = v := by
      simp [pget, hv]
    refine ⟨?_, ?_, ?_⟩ <;>
      simp [hotTankTargetAvailable, hotTankMinAvailable, hotTankMaxAvailable,
        hd, hdev, hs, hpget, pyEqStr_eq_false hne, pyIsNone_eq_false hnn]

/-- C4 witness: one concrete snapshot with the sentinel `"off"` and one
with a design temperature, with availabilities evaluated. -/
theorem c4_outdoor_reset_gates_target_vs_min_max_witness :
    (hotTankTargetAvailable offState (some "SYNC") = true
      ∧ hotTankTargetNativeValue offState (some "SYNC") =
          pget offDevice.parameters "target_temperature_tank"
      ∧ hotTankMinAvailable offState (some "SYNC") = false
      ∧ hotTankMaxAvailable offState (some "SYNC") = false)
    ∧ (hotTankTargetAvailable onState (some "SYNC") = false
      ∧ hotTankMinAvailable onState (some "SYNC") = true
      ∧ hotTankMaxAvailable onState (some "SYNC") = true) :=
  ⟨(c4_outdoor_reset_gates_target_vs_min_max offState offData (some "SYNC")
      offDevice rfl rfl rfl).1 rfl,
   (c4_outdoor_reset_gates_target_vs_min_max onState onData (some "SYNC")
      onDevice rfl rfl rfl).2 (.pyint 14) rfl (by decide) (by decide)⟩

/-- C5: in a successful snapshot, every entry of the devices dict is keyed
by the device's `syncCode` when that field is present and truthy (a
nonempty string), and by its `id` field otherwise. -/
theorem c5_devices_keyed_by_sync_code (o : ApiOracle) (d : CoordData)
    (k : Option String) (sd : StoredDevice)
    (ho : asyncUpdateData o = .ok d)
    (h : lookupKV d.devices k = some sd) :
    keyedBySyncCode k sd := by
  have hd : d.devices = buildDevices d.buildings := by
    unfold asyncUpdateData at ho
    cases hb : asyncUpdateDataBody o with
    | ok d' =>
      rw [hb] at ho
      simp only [UpdateOutcome.ok.injEq] at ho
      subst ho
      exact asyncUpdateDataBody_ok_devices o d' hb
    | error e =>
      rw [hb] at ho
      cases e <;> simp at ho
  rw [hd] at h
  exact lookupKV_buildDevices_keyed _ _ _ h

/-- C5 witness: a concrete update whose only device has both a truthy
`syncCode` and an `id`; the stored entry is keyed accordingly. -/
theorem c5_devices_keyed_by_sync_code_witness :
    keyedBySyncCode (some "SYNC123") (storeDevice sampleBuilding sampleDevice) :=
  c5_devices_keyed_by_sync_code sampleOracle
    ⟨.pystr "user", [sampleBuilding], buildDevices [sampleBuilding]⟩
    (some "SYNC123") (storeDevice sampleBuilding sampleDevice) rfl rfl

/-- C6: platform setup creates an entity only when the parameter key
guarding it is present in the device's map: every number entity requires
its guard key, every description-keyed binary sensor requires its key,
heat-pump stage entities require `heatpump_stages`, and backup binary
sensors require `backup_state`. -/
theorem c6_entity_creation_requires_key :
    (∀ (d : CoordData) (k : Option String) (kind : NumberKind),
      Entity.number k kind ∈ numberSetupEntities (some d) →
      ∃ dev, (k, dev) ∈ d.devices ∧
        (dev.parameters (numberGuardKey kind)).isSome = true)
    ∧ (∀ (d : CoordData) (k : Option String) (key : String),
      Entity.binarySensor k key ∈ binarySetupEntities (some d) →
      ∃ dev, (k, dev) ∈ d.devices ∧ (dev.parameters key).isSome = true)
    ∧ (∀ (d : CoordData) (k : Option String) (title sty dk : String),
      Entity.hpStageBinary k title sty dk ∈ binarySetupEntities (some d) →
      ∃ dev, (k, dev) ∈ d.devices ∧
        (dev.parameters "heatpump_stages").isSome = true)
    ∧ (∀ (d : CoordData) (k : Option String) (title sty dk : String),
      Entity.backupBinary k title sty dk ∈ binarySetupEntities (some d) →
      ∃ dev, (k, dev) ∈ d.devices ∧
        (dev.parameters "backup_state").isSome = true) := by
  refine ⟨?_, ?_, ?_, ?_⟩
  · intro d k kind h
    unfold numberSetupEntities at h
    rw [List.mem_flatMap] at h
    obtain ⟨kv, hkv, hent⟩ := h
    obtain ⟨kind', heq, hp⟩ := mem_deviceNumberEntities kv.1 kv.2 _ hent
    rw [Entity.number.injEq] at heq
    obtain ⟨hk, hkind⟩ := heq
    subst hkind
    refine ⟨kv.2, ?_, hp⟩
    rw [hk, Prod.mk.eta]
    exact hkv
  · intro d k key h
    unfold binarySetupEntities at h
    rw [List.mem_flatMap] at h
    obtain ⟨kv, hkv, hent⟩ := h
    obtain ⟨hk, hp⟩ := binarySensor_mem_deviceBinary kv.1 k kv.2 key hent
    refine ⟨kv.2, ?_, hp⟩
    rw [hk, Prod.mk.eta]
    exact hkv
  · intro d k title sty dk h
    unfold binarySetupEntities at h
    rw [List.mem_flatMap] at h
    obtain ⟨kv, hkv, hent⟩ := h
    obtain ⟨hk, hp⟩ := hpStageBinary_mem_deviceBinary kv.1 k kv.2 title sty dk hent
    refine ⟨kv.2, ?_, hp⟩
    rw [hk, Prod.mk.eta]
    exact hkv
  · intro d k title sty dk h
    unfold binarySetupEntities at h
    rw [List.mem_flatMap] at h
    obtain ⟨kv, hkv, hent⟩ := h
    obtain ⟨hk, v, htg⟩ := backupBinary_mem_deviceBinary kv.1 k kv.2 title sty dk hent
    refine ⟨kv.2, ?_, truthyGet_isSome _ _ _ htg⟩
    rw [hk, Prod.mk.eta]
    exact hkv

/-- C6 witness: a concrete snapshot where each entity family is created,
showing the corresponding key present on the creating device. -/
theorem c6_entity_creation_requires_key_witness :
    (∃ dev, (some "W", dev) ∈ witData.devices ∧
      (dev.parameters (numberGuardKey .hotTankTarget)).isSome = true)
    ∧ (∃ dev, (some "W", dev) ∈ witData.devices ∧
      (dev.parameters "permanent_heat_demand").isSome = true)
    ∧ (∃ dev, (some "W", dev) ∈ witData.devices ∧
      (dev.parameters "heatpump_stages").isSome = true)
    ∧ (∃ dev, (some "W", dev) ∈ witData.devices ∧
      (dev.parameters "backup_state").isSome = true) :=
  ⟨c6_entity_creation_requires_key.1 witData (some "W") .hotTankTarget (by decide),
   c6_entity_creation_requires_key.2.1 witData (some "W") "permanent_heat_demand"
     (by decide),
   c6_entity_creation_requires_key.2.2.1 witData (some "W") "Stage 1" "running"
     "activated" (by decide),
   c6_entity_creation_requires_key.2.2.2 witData (some "W") "Backup" "running"
     "activated" (by decide)⟩

/-- C8: for a device whose `backup_state` is absent or falsy in the
snapshot, no backup binary sensors and no backup runtime sensor are created
for it. -/
theorem c8_no_backup_entities_when_falsy (d : CoordData) (k : Option String)
    (h : ∀ dev : StoredDevice, (k, dev) ∈ d.devices →
      pyTruthy (pget dev.parameters "backup_state") = false) :
    (∀ title sty dk : String,
      Entity.backupBinary k title sty dk ∉ binarySetupEntities (some d))
    ∧ (∀ title : String,
      Entity.backupRuntime k title ∉ sensorSetupEntities (some d)) := by
  constructor
  · intro title sty dk hmem
    unfold binarySetupEntities at hmem
    rw [List.mem_flatMap] at hmem
    obtain ⟨kv, hkv, hent⟩ := hmem
    obtain ⟨hk, v, htg⟩ := backupBinary_mem_deviceBinary kv.1 k kv.2 title sty dk hent
    have hfalsy : pyTruthy (pget kv.2.parameters "backup_state") = false := by
      refine h kv.2 ?_
      rw [hk, Prod.mk.eta]
      exact hkv
    rw [truthyGet_eq_none _ _ hfalsy] at htg
    exact Option.noConfusion htg
  · intro title hmem
    unfold sensorSetupEntities at hmem
    rw [List.mem_flatMap] at hmem
    obtain ⟨kv, hkv, hent⟩ := hmem
    obtain ⟨hk, v, htg⟩ := backupRuntime_mem_deviceSensor kv.1 k kv.2 title hent
    have hfalsy : pyTruthy (pget kv.2.parameters "backup_state") = false := by
      refine h kv.2 ?_
      rw [hk, Prod.mk.eta]
      exact hkv
    rw [truthyGet_eq_none _ _ hfalsy] at htg
    exact Option.noConfusion htg

/-- C8 witness: a concrete device without a `backup_state` key gets no
backup binary sensors and no backup runtime sensor. -/
theorem c8_no_backup_entities_when_falsy_witness :
    (Entity.backupBinary (some "E") "Backup" "running" "activated" ∉
      binarySetupEntities (some noBackupData))
    ∧ (Entity.backupRuntime (some "E") "Backup" ∉
      sensorSetupEntities (some noBackupData)) := by
  have h : ∀ dev : StoredDevice, ((some "E" : Option String), dev) ∈
      noBackupData.devices →
      pyTruthy (pget dev.parameters "backup_state") = false := by
    intro dev hdev
    unfold noBackupData at hdev
    rw [List.mem_singleton, Prod.mk.injEq] at hdev
    obtain ⟨-, rfl⟩ := hdev
    rfl
  exact ⟨(c8_no_backup_entities_when_falsy noBackupData (some "E") h).1
      "Backup" "running" "activated",
    (c8_no_backup_entities_when_falsy noBackupData (some "E") h).2 "Backup"⟩

/-- C1 counterexample: the claim as stated fails on the temperature-bundle
fetch.  In `c1FailFetches` exactly one fetch (`get_temperatures`) raises
while every other fetch, `get_firmware_version` included, returns
successfully — yet the assembled parameter map lacks `firmware_version`
(and every other key), because the per-device handler that swallows the
temperature exception sits outside the individually wrapped fetches, so
the remaining fetches are skipped.  The claim's "every other parameter key
fetched without error is still present" is therefore false. -/
theorem c1_counterexample :
    c1FailFetches.temperatures = Except.error (.otherExc "boom")
    ∧ c1FailFetches.firmwareVersion = Except.ok (.pystr "1.0")
    ∧ buildParameters c1FailFetches "firmware_version" = none :=
  ⟨rfl, rfl, rfl⟩

/-- C1 (amended): a failing temperature-bundle fetch is swallowed but
empties the whole per-device map (all later fetches are skipped); every
later, individually wrapped fetch is isolated — the map holds exactly its
own contribution at its key, independent of the other fetches — and the
update as a whole still succeeds whatever the per-parameter results are. -/
theorem c1_parameter_fetch_isolation :
    (∀ (f : DeviceFetches) (e : Exc) (k : String),
      buildParameters { f with temperatures := Except.error e } k = none)
    ∧ (∀ (f : DeviceFetches) (ts : List (String × TempEntry)),
      f.temperatures = Except.ok ts →
      buildParameters f "permanent_heat_demand" = excToOption f.permanentHeatDemand
      ∧ buildParameters f "permanent_cool_demand" = excToOption f.permanentCoolDemand
      ∧ buildParameters f "hvac_mode" = hvacExpected f.hvacModePriority
      ∧ buildParameters f "hot_tank_min_temp" = excToOption f.hotTankMinTemp
      ∧ buildParameters f "hot_tank_max_temp" = excToOption f.hotTankMaxTemp
      ∧ buildParameters f "hot_tank_outdoor_reset" = excToOption f.hotTankOutdoorReset
      ∧ buildParameters f "cold_tank_min_temp" = excToOption f.coldTankMinTemp
      ∧ buildParameters f "cold_tank_max_temp" = excToOption f.coldTankMaxTemp
      ∧ buildParameters f "cold_tank_outdoor_reset" = excToOption f.coldTankOutdoorReset
      ∧ buildParameters f "firmware_version" = excToOption f.firmwareVersion
      ∧ buildParameters f "device_type" = excToOption f.deviceType
      ∧ buildParameters f "warm_weather_shutdown" = excToOption f.warmWeatherShutdown
      ∧ buildParameters f "cold_weather_shutdown" = excToOption f.coldWeatherShutdown
      ∧ buildParameters f "heatpump_stages" = stagesExpected f.heatpumpStagesState
      ∧ buildParameters f "backup_state" = backupExpected f.backupState)
    ∧ (∀ (o : ApiOracle) (p : PyValue) (bs : List Building),
      o.login = Except.ok () → o.profile = Except.ok p → pyTruthy p = true →
      o.buildings = Except.ok bs →
      asyncUpdateData o = .ok ⟨p, bs, buildDevices bs⟩) :=
  ⟨buildParameters_temps_error,
   fun f ts h =>
     ⟨bp_permanent_heat f ts h, bp_permanent_cool f ts h, bp_hvac f ts h,
      bp_hot_tank_min f ts h, bp_hot_tank_max f ts h, bp_hot_tank_or f ts h,
      bp_cold_tank_min f ts h, bp_cold_tank_max f ts h, bp_cold_tank_or f ts h,
      bp_firmware f ts h, bp_device_type f ts h, bp_warm_weather f ts h,
      bp_cold_weather f ts h, bp_stages f ts h, bp_backup f ts h⟩,
   asyncUpdateData_ok⟩

/-- C1 witness: the amended theorem evaluated at concrete inputs — an
erroring temperature bundle empties the map, a successful fetch set stores
the firmware key, and a fully successful oracle yields a snapshot. -/
theorem c1_parameter_fetch_isolation_witness :
    buildParameters { sampleFetches with temperatures := Except.error (.otherExc "x") }
      "hvac_mode" = none
    ∧ buildParameters sampleFetches "firmware_version" =
        excToOption sampleFetches.firmwareVersion
    ∧ asyncUpdateData sampleOracle =
        .ok ⟨.pystr "user", [sampleBuilding], buildDevices [sampleBuilding]⟩ :=
  ⟨c1_parameter_fetch_isolation.1 sampleFetches (.otherExc "x") "hvac_mode",
   (c1_parameter_fetch_isolation.2.1 sampleFetches [] rfl).2.2.2.2.2.2.2.2.2.1,
   c1_parameter_fetch_isolation.2.2 sampleOracle (.pystr "user") [sampleBuilding]
     rfl rfl rfl rfl⟩

end HbxControls
